import Mathlib

/-!
Verification of `src/data_loader.py`: a CLI script that loads a tabular
data file (Excel / CSV / JSON) into a pandas DataFrame and logs it as a
Weights & Biases artifact.

The embedding models:
  * `os.path.splitext` (POSIX semantics, as in CPython `genericpath._splitext`);
  * the pandas readers abstractly: a file's bytes determine the outcome of
    each parser, recorded in `FileData`; `pandas.read_excel` is modelled
    concretely enough to capture its documented `sheet_name` behaviour
    (a `str` selects one sheet; `None` returns a dict of all sheets);
  * `load_data` and `main`, translated line by line from the source;
  * the side effects of `main` (wandb calls, file writes) as an event trace.
-/

namespace DataLoader

/-- A pandas DataFrame, abstracted to its column labels and rows of cells. -/
structure DataFrame where
  columns : List String
  rows : List (List String)
deriving DecidableEq, Repr

/-- A Python value returned by a pandas reader: either a single DataFrame or
a dict mapping sheet names to DataFrames (what `read_excel` returns when
`sheet_name=None`). -/
inductive PdObject where
  | frame (df : DataFrame)
  | frameDict (sheets : List (String × DataFrame))
deriving DecidableEq, Repr

/-- Errors a pandas parser can raise. -/
inductive PdError where
  | emptyDataError
  | parserError
  | other (msg : String)
deriving DecidableEq, Repr

/-- Python exceptions relevant to the script. -/
inductive PyError where
  | fileNotFoundError (msg : String)
  | valueError (msg : String)
  | emptyDataError
  | parserError
  | attributeError (msg : String)
  | otherError (msg : String)
deriving DecidableEq, Repr

/-- Embed a pandas error into the Python exception type: the exception
object propagates as itself. -/
def pdToPy : PdError → PyError
  | .emptyDataError => .emptyDataError
  | .parserError => .parserError
  | .other m => .otherError m

/-- The content of one file on disk, abstracted to what each pandas parser
would produce from its bytes:
  * `excelSheets`: `some sheets` when the bytes are a valid workbook
    (sheet name to DataFrame, in workbook order), `none` otherwise;
  * `csvParse`: the outcome of `pandas.read_csv` on the bytes;
  * `jsonSplitParse`: the outcome of `pandas.read_json(..., orient='split')`. -/
structure FileData where
  excelSheets : Option (List (String × DataFrame))
  csvParse : Except PdError DataFrame
  jsonSplitParse : Except PdError DataFrame

/-- The file system: an association list from path to file content.
`os.path.exists p` is `(fs.lookup p).isSome`. -/
def FileSys : Type := List (String × FileData)

/-- Python `repr` of a plain string (no quote or backslash escaping needed
for the strings this development evaluates): `'` + s + `'`. -/
def pyRepr (s : String) : String := "'" ++ s ++ "'"

/-- Lower-casing of a string, character by character (Python `str.lower`
restricted to ASCII, which file extensions here are). -/
def strToLower (s : String) : String := ⟨s.toList.map Char.toLower⟩

/-- Index of the last occurrence of `c` in `cs`, or `-1` if absent
(Python `str.rfind`). -/
def rfind (cs : List Char) (c : Char) : Int :=
  ((List.range cs.length).filter (fun i => cs.getD i ' ' == c)).foldl
    (fun _ i => (i : Int)) (-1)

/-- POSIX `os.path.splitext`, following CPython `genericpath._splitext`:
split at the last `'.'` that lies after the last `'/'` and is preceded,
within the final path component, by at least one character that is not a
`'.'`; otherwise the extension is empty. -/
def splitext (p : String) : String × String :=
  let cs := p.toList
  let sepIndex := rfind cs '/'
  let dotIndex := rfind cs '.'
  if sepIndex < dotIndex then
    if ((List.range cs.length).filter
        (fun i : Nat => decide (sepIndex < (i : Int)) && decide ((i : Int) < dotIndex)
          && (cs.getD i '.' != '.'))).length > 0 then
      (⟨cs.take dotIndex.toNat⟩, ⟨cs.drop dotIndex.toNat⟩)
    else (p, "")
  else (p, "")

/-- Model of `pandas.read_excel` on a file's content, per the documented
`sheet_name` semantics: a string selects the sheet of that name (erroring
when absent); `None` returns a dict of all sheets. Non-workbook bytes
raise. -/
def read_excel (fd : FileData) (sheet_name : Option String) :
    Except PyError PdObject :=
  match fd.excelSheets with
  | none => .error (.otherError "not a valid Excel workbook")
  | some sheets =>
    match sheet_name with
    | none => .ok (.frameDict sheets)
    | some s =>
      match sheets.lookup s with
      | some df => .ok (.frame df)
      | none => .error (.otherError ("Worksheet named " ++ pyRepr s ++ " not found"))

/-- The body of the `try` block of `load_data`: dispatch on the file
extension to the matching pandas reader, or raise `ValueError`. -/
def dispatch (fd : FileData) (file_extension : String)
    (sheet_name : Option String) : Except PyError PdObject :=
  if file_extension = ".xlsx" then
    read_excel fd sheet_name
  else if file_extension = ".csv" then
    (fd.csvParse.mapError pdToPy).map PdObject.frame
  else if file_extension = ".json" then
    (fd.jsonSplitParse.mapError pdToPy).map PdObject.frame
  else
    .error (.valueError ("Unsupported file format: " ++ pyRepr file_extension))

/-- The `except` chain of `load_data`: each handler (`EmptyDataError`,
`ParserError`, bare `Exception`) logs and re-raises the caught exception
itself. -/
def reraise : PyError → PyError
  | .emptyDataError => .emptyDataError
  | .parserError => .parserError
  | e => e

/-- `load_data(file_path, sheet_name=None)`: raise `FileNotFoundError` when
the path does not exist, else split off the extension, dispatch to the
matching reader inside `try`, and on any exception from the body log and
re-raise it. -/
def load_data (fs : FileSys) (file_path : String)
    (sheet_name : Option String := none) : Except PyError PdObject :=
  match List.lookup file_path fs with
  | none => .error (.fileNotFoundError ("File not found: " ++ pyRepr file_path))
  | some fd =>
    let file_extension := (splitext file_path).2
    match dispatch fd file_extension sheet_name with
    | .ok df => .ok df
    | .error e => .error (reraise e)

/-- Command-line arguments of the script. -/
structure Args where
  file_path : String
  sheet_name : Option String
  artifact_name : String
  artifact_type : Option String
  artifact_description : Option String
deriving DecidableEq, Repr

/-- Observable side effects of `main`, in order:
  * `initRun`: `wandb.init(job_type=...)`;
  * `load`: the call to `load_data`;
  * `writeFile`: `artifact.new_file(fileName)` holding `df.to_csv(f, index=index)`,
    so the written bytes are determined by `df` and the `index` flag alone;
  * `logArtifact`: `wandb.log_artifact`. -/
inductive Event where
  | initRun (jobType : String)
  | load (path : String) (sheet : Option String)
  | writeFile (artifactName : String) (fileName : String) (df : DataFrame) (index : Bool)
  | logArtifact (artifactName : String)
deriving DecidableEq, Repr

/-- `main(args)`: returns the event trace and `some` exception when one
propagates out. `wandb.init` runs first; then `load_data`, whose exception
aborts the rest; on success `df.to_csv(f, index=False)` is written into the
artifact file `"raw_data.csv"` and the artifact is logged. When `load_data`
returns a dict (the `sheet_name=None` Excel case), `df.to_csv` raises
`AttributeError`, aborting before the artifact is logged. -/
def main (fs : FileSys) (args : Args) : List Event × Option PyError :=
  let pre := [Event.initRun "data_loader",
              Event.load args.file_path args.sheet_name]
  match load_data fs args.file_path args.sheet_name with
  | .error e => (pre, some e)
  | .ok (.frameDict _) =>
      (pre, some (.attributeError "dict object has no attribute to_csv"))
  | .ok (.frame df) =>
      (pre ++ [Event.writeFile args.artifact_name "raw_data.csv" df false,
               Event.logArtifact args.artifact_name], none)

/-! Concrete fixtures used by witnesses and counterexamples. -/

/-- A small two-column table. -/
def dfA : DataFrame := ⟨["a", "b"], [["1", "2"], ["3", "4"]]⟩

/-- A second, distinct table. -/
def dfB : DataFrame := ⟨["c"], [["5"]]⟩

/-- A two-sheet Excel workbook; its bytes parse as neither CSV nor JSON. -/
def wbFile : FileData :=
  ⟨some [("Sheet1", dfA), ("Sheet2", dfB)], .error (.other "not csv"),
   .error (.other "not json")⟩

/-- A CSV file whose bytes parse to `dfA`. -/
def csvFile : FileData := ⟨none, .ok dfA, .error (.other "trailing data")⟩

/-- A JSON (orient=split) file whose bytes parse to `dfB`. -/
def jsonFile : FileData := ⟨none, .error .parserError, .ok dfB⟩

/-- A file whose bytes no pandas parser accepts. -/
def txtFile : FileData := ⟨none, .error .parserError, .error (.other "bad")⟩

/-- An empty file: `read_csv` raises `EmptyDataError` on it. -/
def emptyFile : FileData := ⟨none, .error .emptyDataError, .error (.other "empty")⟩

/-! Helper lemmas shared by the claim theorems. -/

/-- Every `except` handler of `load_data` re-raises the caught exception
itself. -/
theorem reraise_eq (e : PyError) : reraise e = e := by
  cases e <;> rfl

/-- For an existing path, `load_data` returns exactly what the `try` body
returns: the handlers change nothing. -/
theorem load_data_eq_dispatch (fs : FileSys) (fp : String) (fd : FileData)
    (sheet : Option String) (h : List.lookup fp fs = some fd) :
    load_data fs fp sheet = dispatch fd (splitext fp).2 sheet := by
  have hstep : load_data fs fp sheet =
      match dispatch fd (splitext fp).2 sheet with
      | .ok df => .ok df
      | .error e => .error (reraise e) := by
    unfold load_data
    rw [h]
  rw [hstep]
  cases dispatch fd (splitext fp).2 sheet with
  | ok v => rfl
  | error e => exact congrArg Except.error (reraise_eq e)

/-- `dispatch` on an extension other than the three supported ones raises
`ValueError`. -/
theorem dispatch_unsupported (fd : FileData) (ext : String)
    (sheet : Option String) (hx : ext ≠ ".xlsx") (hc : ext ≠ ".csv")
    (hj : ext ≠ ".json") :
    dispatch fd ext sheet
      = .error (.valueError ("Unsupported file format: " ++ pyRepr ext)) := by
  unfold dispatch
  rw [if_neg hx, if_neg hc, if_neg hj]

/-- Case analysis of `main` on the outcome of `load_data`. -/
theorem main_eq (fs : FileSys) (args : Args) :
    main fs args =
      match load_data fs args.file_path args.sheet_name with
      | .error e =>
          ([Event.initRun "data_loader",
            Event.load args.file_path args.sheet_name], some e)
      | .ok (.frameDict _) =>
          ([Event.initRun "data_loader",
            Event.load args.file_path args.sheet_name],
           some (.attributeError "dict object has no attribute to_csv"))
      | .ok (.frame df) =>
          ([Event.initRun "data_loader",
            Event.load args.file_path args.sheet_name,
            Event.writeFile args.artifact_name "raw_data.csv" df false,
            Event.logArtifact args.artifact_name], none) := by
  unfold main
  cases load_data fs args.file_path args.sheet_name with
  | error e => rfl
  | ok o => cases o with
    | frame df => rfl
    | frameDict s => rfl

example : splitext "data.csv" = ("data", ".csv") := by decide
example : splitext ".csv" = (".csv", "") := by decide
example : splitext "a.tar.gz" = ("a.tar", ".gz") := by decide
example : splitext "dir/.csv" = ("dir/.csv", "") := by decide
example : splitext "dir/x.json" = ("dir/x", ".json") := by decide
example : splitext "noext" = ("noext", "") := by decide
example : splitext "data.CSV" = ("data", ".CSV") := by decide

/-- Arguments of a successful CSV run. -/
def argsCsvRun : Args :=
  ⟨"table.csv", none, "raw_dataset", some "dataset", some "demo table"⟩

/-- File system of a successful CSV run. -/
def fsCsvRun : FileSys := [("table.csv", csvFile)]

/-- Arguments of a successful JSON run. -/
def argsJsonRun : Args := ⟨"t.json", none, "json_art", none, none⟩

/-- File system of a successful JSON run. -/
def fsJsonRun : FileSys := [("t.json", jsonFile)]

/-- Arguments pointing at a path that does not exist. -/
def argsMissing : Args := ⟨"missing.csv", none, "raw_dataset", none, none⟩

/-- C1: the claim says `load_data` on an existing `.xlsx` file always returns
a single DataFrame, also when `sheet_name` is omitted (`None`). The code
passes `sheet_name=None` straight to `pandas.read_excel`, which then returns
a dict of all sheets — never a single DataFrame — contradicting the
function's own `-> pd.DataFrame` annotation and docstring. -/
theorem load_data_xlsx_default_returns_sheet_dict :
    load_data [("data.xlsx", wbFile)] "data.xlsx" none
      = .ok (.frameDict [("Sheet1", dfA), ("Sheet2", dfB)])
    ∧ ∀ df : DataFrame,
        load_data [("data.xlsx", wbFile)] "data.xlsx" none
          ≠ .ok (.frame df) := by
  refine ⟨rfl, fun df hdf => ?_⟩
  rw [show load_data [("data.xlsx", wbFile)] "data.xlsx" none
      = .ok (.frameDict [("Sheet1", dfA), ("Sheet2", dfB)]) from rfl] at hdf
  exact PdObject.noConfusion (Except.ok.inj hdf)

/-- C2 (counterexample): a file named exactly `.csv` exists, its name ends in
".csv" and its bytes parse as CSV, yet `load_data` raises `ValueError`
instead of returning the CSV parser's result: `os.path.splitext` assigns a
dot-file an empty extension. -/
theorem dot_csv_file_raises_value_error :
    List.lookup ".csv" [(".csv", csvFile)] = some csvFile
    ∧ csvFile.csvParse = .ok dfA
    ∧ load_data [(".csv", csvFile)] ".csv" none
        = .error (.valueError "Unsupported file format: ''")
    ∧ load_data [(".csv", csvFile)] ".csv" none ≠ .ok (.frame dfA) := by
  refine ⟨rfl, rfl, rfl, fun hc => ?_⟩
  rw [show load_data [(".csv", csvFile)] ".csv" none
      = .error (.valueError "Unsupported file format: ''") from rfl] at hc
  exact Except.noConfusion hc

/-- C2 (amended): `load_data` dispatches purely on the extension computed by
`os.path.splitext` (empty for a dot-file such as one named `.csv`): when that
extension is `.xlsx` it returns the Excel reader's result with the given
`sheet_name`; when `.csv`, the CSV reader's result; when `.json`, the JSON
reader's result with `orient='split'`; the dispatch consults nothing but
that extension. -/
theorem load_data_dispatches_on_splitext_extension (fs : FileSys)
    (fp : String) (fd : FileData) (sheet : Option String)
    (h : List.lookup fp fs = some fd) :
    ((splitext fp).2 = ".xlsx" → load_data fs fp sheet = read_excel fd sheet)
    ∧ ((splitext fp).2 = ".csv" →
        load_data fs fp sheet = (fd.csvParse.mapError pdToPy).map PdObject.frame)
    ∧ ((splitext fp).2 = ".json" →
        load_data fs fp sheet
          = (fd.jsonSplitParse.mapError pdToPy).map PdObject.frame) := by
  refine ⟨fun hx => ?_, fun hc => ?_, fun hj => ?_⟩ <;>
    rw [load_data_eq_dispatch fs fp fd sheet h]
  · rw [hx]; rfl
  · rw [hc]; rfl
  · rw [hj]; rfl

/-- Witness for C2 (amended): a concrete `.csv` run returns the CSV parse. -/
theorem load_data_dispatches_on_splitext_extension_witness :
    load_data [("a.csv", csvFile)] "a.csv" none = .ok (.frame dfA) := by
  rw [(load_data_dispatches_on_splitext_extension
      [("a.csv", csvFile)] "a.csv" csvFile none rfl).2.1 rfl]
  rfl

/-- C3: for every existing file whose extension is none of `.xlsx`, `.csv`,
`.json`, `load_data` raises `ValueError` (unsupported format) and returns no
DataFrame. -/
theorem load_data_unsupported_extension_raises_value_error (fs : FileSys)
    (fp : String) (fd : FileData) (sheet : Option String)
    (h : List.lookup fp fs = some fd)
    (hx : (splitext fp).2 ≠ ".xlsx") (hc : (splitext fp).2 ≠ ".csv")
    (hj : (splitext fp).2 ≠ ".json") :
    load_data fs fp sheet
      = .error (.valueError
          ("Unsupported file format: " ++ pyRepr (splitext fp).2)) := by
  rw [load_data_eq_dispatch fs fp fd sheet h]
  exact dispatch_unsupported fd _ sheet hx hc hj

/-- Witness for C3: a `.txt` file raises `ValueError`. -/
theorem load_data_unsupported_extension_raises_value_error_witness :
    load_data [("data.txt", txtFile)] "data.txt" none
      = .error (.valueError "Unsupported file format: '.txt'") := by
  rw [load_data_unsupported_extension_raises_value_error
      [("data.txt", txtFile)] "data.txt" txtFile none rfl
      (by decide) (by decide) (by decide)]
  rfl

/-- C4: for every path that does not exist, `load_data` raises
`FileNotFoundError`, regardless of the extension and of `sheet_name`, before
any dispatch or parsing: the result does not depend on any file's content. -/
theorem load_data_missing_file_raises_file_not_found (fs : FileSys)
    (fp : String) (sheet : Option String) (h : List.lookup fp fs = none) :
    load_data fs fp sheet
      = .error (.fileNotFoundError ("File not found: " ++ pyRepr fp)) := by
  unfold load_data
  rw [h]

/-- Witness for C4: a missing `.xlsx` path with a sheet name. -/
theorem load_data_missing_file_raises_file_not_found_witness :
    load_data [] "ghost.xlsx" (some "Sheet1")
      = .error (.fileNotFoundError "File not found: 'ghost.xlsx'") :=
  load_data_missing_file_raises_file_not_found [] "ghost.xlsx"
    (some "Sheet1") rfl

/-- C5: on every successful invocation, `main` performs exactly one run
initialisation, one load of one file, one CSV serialisation of the loaded
table, and one artifact log, in that order. -/
theorem main_success_trace (fs : FileSys) (args : Args)
    (h : (main fs args).2 = none) :
    ∃ df, load_data fs args.file_path args.sheet_name = .ok (.frame df)
      ∧ (main fs args).1 = [Event.initRun "data_loader",
          Event.load args.file_path args.sheet_name,
          Event.writeFile args.artifact_name "raw_data.csv" df false,
          Event.logArtifact args.artifact_name] := by
  rw [main_eq] at h ⊢
  cases hl : load_data fs args.file_path args.sheet_name with
  | error e => rw [hl] at h; simp at h
  | ok o => cases o with
    | frameDict s => rw [hl] at h; simp at h
    | frame df => exact ⟨df, rfl, rfl⟩

/-- Witness for C5: a successful CSV run produces the four-event trace. -/
theorem main_success_trace_witness :
    (main fsCsvRun argsCsvRun).2 = none
    ∧ ∃ df, load_data fsCsvRun argsCsvRun.file_path argsCsvRun.sheet_name
          = .ok (.frame df)
      ∧ (main fsCsvRun argsCsvRun).1 = [Event.initRun "data_loader",
          Event.load argsCsvRun.file_path argsCsvRun.sheet_name,
          Event.writeFile argsCsvRun.artifact_name "raw_data.csv" df false,
          Event.logArtifact argsCsvRun.artifact_name] :=
  ⟨rfl, main_success_trace fsCsvRun argsCsvRun rfl⟩

/-- C6: the table handed to the CSV serialisation inside the artifact file is
the DataFrame `load_data` returned, unchanged, and the positional index is
not written (`index=False`). -/
theorem main_writes_loaded_frame_unchanged (fs : FileSys) (args : Args)
    (df : DataFrame)
    (h : load_data fs args.file_path args.sheet_name = .ok (.frame df)) :
    Event.writeFile args.artifact_name "raw_data.csv" df false
      ∈ (main fs args).1 := by
  rw [main_eq, h]
  simp

/-- Witness for C6: a JSON run serialises exactly the parsed table `dfB`. -/
theorem main_writes_loaded_frame_unchanged_witness :
    Event.writeFile argsJsonRun.artifact_name "raw_data.csv" dfB false
      ∈ (main fsJsonRun argsJsonRun).1 :=
  main_writes_loaded_frame_unchanged fsJsonRun argsJsonRun dfB rfl

/-- C7: when `load_data` raises, `main` stops after that single attempt: the
trace holds exactly one load event, `wandb.log_artifact` is never reached,
and the same exception propagates out of `main`. -/
theorem main_aborts_on_load_error (fs : FileSys) (args : Args) (e : PyError)
    (h : load_data fs args.file_path args.sheet_name = .error e) :
    main fs args = ([Event.initRun "data_loader",
        Event.load args.file_path args.sheet_name], some e)
    ∧ (∀ n, Event.logArtifact n ∉ (main fs args).1)
    ∧ ((main fs args).1.countP (fun ev => match ev with
        | Event.load _ _ => true | _ => false)) = 1 := by
  have hm : main fs args = ([Event.initRun "data_loader",
      Event.load args.file_path args.sheet_name], some e) := by
    rw [main_eq, h]
  refine ⟨hm, fun n hn => ?_, ?_⟩
  · rw [hm] at hn; simp at hn
  · rw [hm]; rfl

/-- Witness for C7: a missing file aborts the run with no artifact logged. -/
theorem main_aborts_on_load_error_witness :
    main [] argsMissing = ([Event.initRun "data_loader",
        Event.load argsMissing.file_path argsMissing.sheet_name],
      some (.fileNotFoundError "File not found: 'missing.csv'"))
    ∧ (∀ n, Event.logArtifact n ∉ (main [] argsMissing).1)
    ∧ ((main [] argsMissing).1.countP (fun ev => match ev with
        | Event.load _ _ => true | _ => false)) = 1 :=
  main_aborts_on_load_error [] argsMissing
    (.fileNotFoundError "File not found: 'missing.csv'") rfl

/-- C8: whatever exception the `try` body of `load_data` raises — an
`EmptyDataError`, a `ParserError`, a `ValueError`, or any other exception —
`load_data` raises that very exception: every handler logs and re-raises it
unchanged, never substituting a different one. -/
theorem load_data_reraises_original_error (fs : FileSys) (fp : String)
    (fd : FileData) (sheet : Option String) (e : PyError)
    (h : List.lookup fp fs = some fd)
    (hb : dispatch fd (splitext fp).2 sheet = .error e) :
    load_data fs fp sheet = .error e := by
  rw [load_data_eq_dispatch fs fp fd sheet h, hb]

/-- Witness for C8: an empty CSV file's `EmptyDataError` propagates as
itself. -/
theorem load_data_reraises_original_error_witness :
    load_data [("empty.csv", emptyFile)] "empty.csv" none
      = .error .emptyDataError :=
  load_data_reraises_original_error [("empty.csv", emptyFile)] "empty.csv"
    emptyFile none .emptyDataError rfl rfl

/-- C9: extension matching is case-sensitive: an existing file whose
extension equals one of `.xlsx`, `.csv`, `.json` only after lower-casing
(e.g. `data.CSV`) makes `load_data` raise `ValueError` instead of loading
the file. -/
theorem load_data_extension_case_sensitive (fs : FileSys) (fp : String)
    (fd : FileData) (sheet : Option String)
    (h : List.lookup fp fs = some fd)
    (_hlow : strToLower (splitext fp).2 = ".xlsx"
      ∨ strToLower (splitext fp).2 = ".csv"
      ∨ strToLower (splitext fp).2 = ".json")
    (hx : (splitext fp).2 ≠ ".xlsx") (hc : (splitext fp).2 ≠ ".csv")
    (hj : (splitext fp).2 ≠ ".json") :
    load_data fs fp sheet
      = .error (.valueError
          ("Unsupported file format: " ++ pyRepr (splitext fp).2)) := by
  rw [load_data_eq_dispatch fs fp fd sheet h]
  exact dispatch_unsupported fd _ sheet hx hc hj

/-- Witness for C9: `data.CSV` exists with valid CSV bytes, yet raises. -/
theorem load_data_extension_case_sensitive_witness :
    load_data [("data.CSV", csvFile)] "data.CSV" none
      = .error (.valueError "Unsupported file format: '.CSV'") := by
  rw [load_data_extension_case_sensitive [("data.CSV", csvFile)] "data.CSV"
      csvFile none rfl (Or.inr (Or.inl (by decide)))
      (by decide) (by decide) (by decide)]
  rfl

/-- C10: every file created inside the artifact is named exactly
`raw_data.csv`, whatever the input path, format, or artifact name. -/
theorem artifact_file_named_raw_data_csv (fs : FileSys) (args : Args)
    (name fname : String) (df : DataFrame) (idx : Bool)
    (h : Event.writeFile name fname df idx ∈ (main fs args).1) :
    fname = "raw_data.csv" := by
  rw [main_eq] at h
  cases hl : load_data fs args.file_path args.sheet_name with
  | error e => rw [hl] at h; simp at h
  | ok o => cases o with
    | frameDict s => rw [hl] at h; simp at h
    | frame df2 =>
      rw [hl] at h
      simp at h
      exact h.2.1

/-- Witness for C10: the concrete CSV run's write event is in the trace. -/
theorem artifact_file_named_raw_data_csv_witness :
    Event.writeFile argsCsvRun.artifact_name "raw_data.csv" dfA false
      ∈ (main fsCsvRun argsCsvRun).1
    ∧ ("raw_data.csv" : String) = "raw_data.csv" :=
  ⟨by decide, artifact_file_named_raw_data_csv fsCsvRun argsCsvRun
    argsCsvRun.artifact_name "raw_data.csv" dfA false (by decide)⟩

end DataLoader
